import Mathlib

/-!
Verification of the Codegenix traffic-density pipeline.

The definitions below are a shallow embedding of the two source files:

* `src/app.py` — the frame-processing loop `generate_frames`: per-frame
  detection filtering and counting, density scoring, signal decision,
  and the guard that terminates the generator when no video is active.
  Confidences and the density score are modelled as rationals; Python's
  `round(x, 2)` is modelled as round-half-to-even at two decimal places.
* `src/database.py` — the `TrafficDatabase` class: the `traffic_records`
  and `decision_log` tables are modelled as append-only lists, the SQL
  `CHECK` constraint on `lane_id` as an explicit test, and the time
  filters of `get_statistics` over timestamps in seconds.
-/

namespace Codegenix

/-! ## Frame pipeline (src/app.py) -/

/-- The COCO class-name table `classNames` from `src/app.py`. -/
def classNames : List String :=
  ["person","bicycle","car","motorbike","aeroplane","bus","train","truck","boat",
   "traffic light","fire hydrant","stop sign","parking meter","bench","bird","cat",
   "dog","horse","sheep","cow","elephant","bear","zebra","giraffe","backpack","umbrella",
   "handbag","tie","suitcase","frisbee","skis","snowboard","sports ball","kite",
   "baseball bat","baseball glove","skateboard","surfboard","tennis racket","bottle",
   "wine glass","cup","fork","knife","spoon","bowl","banana","apple","sandwich","orange",
   "broccoli","carrot","hot dog","pizza","donut","cake","chair","sofa","pottedplant",
   "bed","diningtable","toilet","tvmonitor","laptop","mouse","remote","keyboard",
   "cell phone","microwave","oven","toaster","sink","refrigerator","book","clock",
   "vase","scissors","teddy bear","hair drier","toothbrush"]

/-- A raw detection as it comes out of the detector: a class index into
`classNames` and a confidence value (a real number, modelled as `ℚ`). -/
structure Detection where
  cls : ℕ
  conf : ℚ
  deriving Repr, DecidableEq

/-- The lookup `currentClass = classNames[cls]` in `generate_frames`. -/
def Detection.className (d : Detection) : String :=
  classNames.getD d.cls ""

/-- Round-half-to-even to the nearest integer, the tie-breaking rule used by
the built-in `round` of Python. -/
def roundHalfEven (q : ℚ) : ℤ :=
  if q - ⌊q⌋ < 1/2 then ⌊q⌋
  else if q - ⌊q⌋ > 1/2 then ⌊q⌋ + 1
  else if ⌊q⌋ % 2 = 0 then ⌊q⌋ else ⌊q⌋ + 1

/-- The Python call `round(x, 2)`: round to two decimal places, ties to even. -/
def round2 (q : ℚ) : ℚ :=
  (roundHalfEven (q * 100) : ℚ) / 100

/-- The class whitelist on line 58 of `src/app.py`. -/
def vehicleClasses : List String := ["car", "bus", "truck", "motorbike"]

/-- The filter on line 58 of `src/app.py`:
`currentClass in ["car","bus","truck","motorbike"] and conf > 0.3`,
where `conf = round(float(box.conf[0]), 2)` (line 54). -/
def keepDetection (d : Detection) : Bool :=
  decide (d.className ∈ vehicleClasses) && decide (round2 d.conf > 3/10)

/-- The per-frame class counters `car_count`, `bus_count`, `truck_count`,
`bike_count` of `generate_frames`. -/
structure Counts where
  car : ℕ
  bus : ℕ
  truck : ℕ
  motorbike : ℕ
  deriving Repr, DecidableEq

def Counts.zero : Counts := ⟨0, 0, 0, 0⟩

/-- One pass of the inner `for box in r.boxes` loop body: if the detection
passes the filter, bump the counter matching its class (the `if/elif`
chain on lines 79-86). -/
def countStep (c : Counts) (d : Detection) : Counts :=
  if keepDetection d then
    if d.className = "car" then { c with car := c.car + 1 }
    else if d.className = "bus" then { c with bus := c.bus + 1 }
    else if d.className = "truck" then { c with truck := c.truck + 1 }
    else if d.className = "motorbike" then { c with motorbike := c.motorbike + 1 }
    else c
  else c

/-- The whole counting loop over one frame's detections, starting from
`car_count = bus_count = truck_count = bike_count = 0` (line 49). -/
def countDetections (ds : List Detection) : Counts :=
  ds.foldl countStep Counts.zero

/-- The density computation on lines 89-94 of `src/app.py`:
`car_count * 1.0 + bus_count * 2.5 + truck_count * 2.0 + bike_count * 0.5`. -/
def densityScore (c : Counts) : ℚ :=
  (c.car : ℚ) * 1 + (c.bus : ℚ) * (5/2) + (c.truck : ℚ) * 2 + (c.motorbike : ℚ) * (1/2)

/-- The three signal levels. -/
inductive Signal where
  | green
  | yellow
  | red
  deriving Repr, DecidableEq

/-- The decision chain on lines 96-101 of `src/app.py`:
`if density_score > 20 → GREEN, elif density_score > 10 → YELLOW, else RED`. -/
def decideSignal (s : ℚ) : Signal :=
  if s > 20 then .green
  else if s > 10 then .yellow
  else .red

/-- The `text` component chosen alongside the colour on lines 96-101. -/
def signalText (s : ℚ) : String :=
  match decideSignal s with
  | .green => "GREEN LIGHT"
  | .yellow => "YELLOW LIGHT"
  | .red => "RED LIGHT"

/-- The BGR `sig_color` chosen on lines 96-101. -/
def signalColor (s : ℚ) : ℕ × ℕ × ℕ :=
  match decideSignal s with
  | .green => (0, 255, 0)
  | .yellow => (0, 255, 255)
  | .red => (0, 0, 255)

/-- What one iteration of the `while cap.isOpened()` loop computes and
overlays for a successfully read frame. -/
structure FrameResult where
  counts : Counts
  score : ℚ
  signal : Signal
  text : String
  color : ℕ × ℕ × ℕ
  deriving Repr, DecidableEq

/-- One iteration of the frame loop of `generate_frames` for a frame whose
detections are `ds`: count, score, decide, overlay. -/
def processFrame (ds : List Detection) : FrameResult :=
  let c := countDetections ds
  let s := densityScore c
  { counts := c, score := s, signal := decideSignal s,
    text := signalText s, color := signalColor s }

/-! ## Persistence store (src/database.py) -/

/-- A row of the `traffic_records` table (lines 33-43 of `src/database.py`).
`timestamp` is seconds since the epoch (`DATETIME DEFAULT CURRENT_TIMESTAMP`);
`congestion_level` and `green_duration` are nullable. -/
structure TrafficRow where
  timestamp : ℕ
  laneId : ℤ
  vehicleCount : ℤ
  congestionLevel : Option String
  greenDuration : Option ℤ
  deriving Repr, DecidableEq

/-- A row of the `decision_log` table (lines 46-58 of `src/database.py`).
The table declares no `CHECK` constraints. -/
structure DecisionRow where
  timestamp : ℕ
  lane1Vehicles : ℤ
  lane2Vehicles : ℤ
  lane1Duration : ℤ
  lane2Duration : ℤ
  totalVehicles : ℤ
  congestionLevel : String
  activeLane : ℤ
  deriving Repr, DecidableEq

/-- The mutable contents of the SQLite database behind `TrafficDatabase`:
both tables are append-only lists, oldest first (insertion order). -/
structure DBState where
  trafficRecords : List TrafficRow
  decisionLog : List DecisionRow
  deriving Repr, DecidableEq

/-- The state right after `_create_tables` on a fresh database file. -/
def DBState.initial : DBState := ⟨[], []⟩

/-- The method `TrafficDatabase.add_traffic_record` (lines 77-91 of `src/database.py`).
The `INSERT` succeeds unless the `CONSTRAINT valid_lane CHECK (lane_id IN
(1, 2))` is violated, in which case SQLite raises `IntegrityError`, the
`except` branch runs, and the method returns `False` with the table
unchanged.  `now` is the commit time that `CURRENT_TIMESTAMP` stamps on
the row. -/
def addTrafficRecord (s : DBState) (laneId vehicleCount : ℤ)
    (congestionLevel : Option String) (greenDuration : Option ℤ)
    (now : ℕ) : Bool × DBState :=
  if laneId = 1 ∨ laneId = 2 then
    (true, { s with trafficRecords :=
      s.trafficRecords ++ [⟨now, laneId, vehicleCount, congestionLevel, greenDuration⟩] })
  else
    (false, s)

/-- The method `TrafficDatabase.add_decision` (lines 93-111 of `src/database.py`):
computes `total_vehicles = lane1_vehicles + lane2_vehicles` and inserts
one row; `decision_log` has no constraints, so the insert succeeds. -/
def addDecision (s : DBState) (lane1Vehicles lane2Vehicles lane1Duration lane2Duration : ℤ)
    (congestionLevel : String) (activeLane : ℤ) (now : ℕ) : Bool × DBState :=
  let totalVehicles := lane1Vehicles + lane2Vehicles
  (true, { s with decisionLog :=
    s.decisionLog ++ [⟨now, lane1Vehicles, lane2Vehicles, lane1Duration, lane2Duration,
                       totalVehicles, congestionLevel, activeLane⟩] })

/-- The method `TrafficDatabase.get_recent_decisions` (lines 125-135): the
decision log ordered `timestamp DESC` (newest insertion first), limited. -/
def getRecentDecisions (s : DBState) (limit : ℕ) : List DecisionRow :=
  s.decisionLog.reverse.take limit

/-- The method `TrafficDatabase.get_recent_records` (lines 113-123): the
traffic records ordered `timestamp DESC` (newest insertion first), limited. -/
def getRecentRecords (s : DBState) (limit : ℕ) : List TrafficRow :=
  s.trafficRecords.reverse.take limit

/-- Seconds in the respective SQLite time windows. -/
def secondsPerDay : ℕ := 86400

def secondsPerHour : ℕ := 3600

def secondsPerWeek : ℕ := 7 * 86400

/-- The time filter built on lines 141-148 of `get_statistics`:
`today` compares calendar dates (`DATE(timestamp) = DATE('now')`),
`week` and `hour` compare against `datetime('now', '-7 days')` and
`datetime('now', '-1 hour')`, and every other string — including `all`
and any unrecognized period — leaves `time_filter = ""`, which matches
every row. -/
def matchesPeriod (timePeriod : String) (now ts : ℕ) : Bool :=
  if timePeriod = "today" then ts / secondsPerDay = now / secondsPerDay
  else if timePeriod = "week" then ts + secondsPerWeek ≥ now
  else if timePeriod = "hour" then ts + secondsPerHour ≥ now
  else true

/-- The statistics that `get_statistics` assembles (lines 150-180); the
claims only concern the two row counts, so the per-lane aggregates and
the congestion distribution are kept as the filtered row lists they are
computed from. -/
structure Statistics where
  totalRecords : ℕ
  totalDecisions : ℕ
  deriving Repr, DecidableEq

/-- The method `TrafficDatabase.get_statistics` (lines 137-180): count the
rows of each table that pass the time filter. -/
def getStatistics (s : DBState) (timePeriod : String) (now : ℕ) : Statistics :=
  { totalRecords :=
      (s.trafficRecords.filter (fun r => matchesPeriod timePeriod now r.timestamp)).length,
    totalDecisions :=
      (s.decisionLog.filter (fun r => matchesPeriod timePeriod now r.timestamp)).length }

/-- A write operation against `TrafficDatabase`: one call to
`add_traffic_record` or to `add_decision`. These are the only two methods
that modify the tables (the class performs no `UPDATE` or `DELETE`), so
every database state reachable from a fresh file is `runOps ops` for some
operation list `ops`. -/
inductive DBOp where
  | record (laneId vehicleCount : ℤ)
      (congestionLevel : Option String) (greenDuration : Option ℤ) (now : ℕ)
  | decision (lane1Vehicles lane2Vehicles lane1Duration lane2Duration : ℤ)
      (congestionLevel : String) (activeLane : ℤ) (now : ℕ)
  deriving Repr

/-- Apply one write operation, keeping only the resulting state. -/
def applyOp (s : DBState) : DBOp → DBState
  | .record l v c g n => (addTrafficRecord s l v c g n).2
  | .decision l1 l2 d1 d2 c a n => (addDecision s l1 l2 d1 d2 c a n).2

/-- The database state after a sequence of write operations on a fresh
database. -/
def runOps (ops : List DBOp) : DBState :=
  ops.foldl applyOp DBState.initial

/-! ## The generator and its (absent) persistence effects (src/app.py) -/

/-- One full iteration of the `while cap.isOpened()` loop of
`generate_frames`, with the persistence store threaded through as
explicit state: the loop body (lines 41-130 of `src/app.py`) computes
counts, score and signal, overlays and encodes the frame, and yields it —
it contains no call into `TrafficDatabase`, so the database state passes
through untouched. -/
def generateFramesStep (db : DBState) (ds : List Detection) : FrameResult × DBState :=
  (processFrame ds, db)

/-- Python truthiness of `current_video_path` on line 36:
`not current_video_path` is true for `None` and for the empty string. -/
def pathTruthy : Option String → Bool
  | none => false
  | some p => p ≠ ""

/-- The generator `generate_frames` (lines 33-132 of `src/app.py`) as a
function of the
current video path, the filesystem (`os.path.exists`), and the sequence
of frames the capture will deliver (each given by its detections): if no
video session is active the generator returns before its first `yield`,
producing the empty stream; otherwise each frame is processed in turn. -/
def generateFrames (currentVideoPath : Option String) (fileExists : String → Bool)
    (frames : List (List Detection)) : List FrameResult :=
  if ¬ pathTruthy currentVideoPath ∨ ¬ fileExists (currentVideoPath.getD "") then []
  else frames.map processFrame

/-! ## Helper lemmas -/

theorem length_filter_mono {α : Type} (l : List α) (p q : α → Bool)
    (h : ∀ a, p a = true → q a = true) :
    (l.filter p).length ≤ (l.filter q).length :=
  (List.monotone_filter_right l h).length_le

/-- The row invariant of the decision log: the stored total equals the sum
of the two lane counts. -/
def decisionInvariant (r : DecisionRow) : Bool :=
  r.totalVehicles == r.lane1Vehicles + r.lane2Vehicles

theorem applyOp_decisionInvariant (s : DBState) (op : DBOp)
    (h : s.decisionLog.all decisionInvariant = true) :
    ((applyOp s op).decisionLog.all decisionInvariant) = true := by
  cases op with
  | record l v c g n =>
    simp only [applyOp, addTrafficRecord]
    split <;> simpa using h
  | decision l1 l2 d1 d2 c a n =>
    simp [applyOp, addDecision, decisionInvariant, h]

theorem foldl_decisionInvariant :
    ∀ (ops : List DBOp) (s : DBState), s.decisionLog.all decisionInvariant = true →
      ((ops.foldl applyOp s).decisionLog.all decisionInvariant) = true := by
  intro ops
  induction ops with
  | nil => intro s h; simpa using h
  | cons op t ih => intro s h; exact ih _ (applyOp_decisionInvariant s op h)

/-! ## Claims -/

/-- C1: for every frame, the density score computed by the frame-processing
loop equals exactly `car * 1.0 + bus * 2.5 + truck * 2.0 + motorbike * 0.5`
over the per-frame counts, and it is a deterministic, total function of
nothing but the four counts: any two frames with equal counts get equal
scores. -/
theorem density_score_linear :
    ∀ ds : List Detection,
      (processFrame ds).score =
        ((countDetections ds).car : ℚ) * 1 + ((countDetections ds).bus : ℚ) * (5/2) +
        ((countDetections ds).truck : ℚ) * 2 + ((countDetections ds).motorbike : ℚ) * (1/2) ∧
      ∀ ds2 : List Detection, countDetections ds = countDetections ds2 →
        (processFrame ds).score = (processFrame ds2).score := by
  intro ds
  refine ⟨rfl, ?_⟩
  intro ds2 h
  simp [processFrame, h]

/-- C1 witness: a single car at confidence 0.9 scores `1 * 1.0`, and a frame
with the same counts reached through different raw detections (one kept car
plus one filtered-out person) gets the same score. -/
theorem density_score_linear_witness :
    ((processFrame [⟨2, 9/10⟩]).score =
      ((countDetections [⟨2, 9/10⟩]).car : ℚ) * 1 +
      ((countDetections [⟨2, 9/10⟩]).bus : ℚ) * (5/2) +
      ((countDetections [⟨2, 9/10⟩]).truck : ℚ) * 2 +
      ((countDetections [⟨2, 9/10⟩]).motorbike : ℚ) * (1/2)) ∧
    (processFrame [⟨2, 9/10⟩]).score = (processFrame [⟨2, 4/5⟩, ⟨0, 1⟩]).score :=
  ⟨(density_score_linear [⟨2, 9/10⟩]).1,
   (density_score_linear [⟨2, 9/10⟩]).2 [⟨2, 4/5⟩, ⟨0, 1⟩] (by
     norm_num [countDetections, countStep, keepDetection, Detection.className,
       classNames, vehicleClasses, round2, roundHalfEven, Counts.zero]
     decide)⟩

/-- C2: the signal decision is GREEN iff the score is above 20, YELLOW iff
it is above 10 and at most 20, and RED iff it is at most 10; a score of
exactly 20 yields YELLOW and a score of exactly 10 yields RED. -/
theorem signal_decision_bands :
    ∀ s : ℚ,
      ((decideSignal s = .green) ↔ 20 < s) ∧
      ((decideSignal s = .yellow) ↔ 10 < s ∧ s ≤ 20) ∧
      ((decideSignal s = .red) ↔ s ≤ 10) ∧
      decideSignal 20 = .yellow ∧ decideSignal 10 = .red := by
  intro s
  have h20 : decideSignal (20 : ℚ) = .yellow := by norm_num [decideSignal]
  have h10 : decideSignal (10 : ℚ) = .red := by norm_num [decideSignal]
  rcases le_or_lt s 10 with hA | hA
  · have hd : decideSignal s = .red := by
      unfold decideSignal
      rw [if_neg (by linarith), if_neg (by linarith)]
    refine ⟨?_, ?_, ?_, h20, h10⟩ <;> rw [hd] <;> constructor <;> intro hh <;>
      first
        | rfl
        | exact absurd hh (by decide)
        | (constructor <;> linarith)
        | linarith
        | exact ((by linarith : False)).elim
        | exact ((by linarith [hh.1, hh.2] : False)).elim
  · rcases le_or_lt s 20 with hB | hB
    · have hd : decideSignal s = .yellow := by
        unfold decideSignal
        rw [if_neg (by linarith), if_pos (by linarith)]
      refine ⟨?_, ?_, ?_, h20, h10⟩ <;> rw [hd] <;> constructor <;> intro hh <;>
        first
          | rfl
          | exact absurd hh (by decide)
          | (constructor <;> linarith)
          | linarith
          | exact ((by linarith : False)).elim
          | exact ((by linarith [hh.1, hh.2] : False)).elim
    · have hd : decideSignal s = .green := by
        unfold decideSignal
        rw [if_pos (by linarith)]
      refine ⟨?_, ?_, ?_, h20, h10⟩ <;> rw [hd] <;> constructor <;> intro hh <;>
        first
          | rfl
          | exact absurd hh (by decide)
          | (constructor <;> linarith)
          | linarith
          | exact ((by linarith : False)).elim
          | exact ((by linarith [hh.1, hh.2] : False)).elim

/-- C3 counterexample: the loop rounds the confidence to two decimals
before comparing with the threshold (line 54 of `src/app.py`), so the
detection of class `car` with confidence 0.30001 — whose raw confidence is
strictly greater than 0.3 and whose class is whitelisted — is NOT counted,
contradicting the claimed filter. -/
theorem detection_threshold_counterexample :
    Detection.className ⟨2, 30001/100000⟩ = "car" ∧
    ((30001 : ℚ)/100000 > 3/10) ∧
    keepDetection ⟨2, 30001/100000⟩ = false := by
  refine ⟨rfl, by norm_num, ?_⟩
  norm_num [keepDetection, Detection.className, classNames, vehicleClasses,
    round2, roundHalfEven]

/-- C3 amended: a detection is counted iff its class is in
{car, bus, truck, motorbike} and its confidence ROUNDED TO TWO DECIMAL
PLACES is strictly greater than 0.3; confidence exactly 0.3 is excluded,
0.30001 is also excluded (it rounds to 0.30), 0.31 is included, and a
person detection is excluded regardless of confidence. -/
theorem detection_filter_rounded_threshold :
    (∀ d : Detection, keepDetection d = true ↔
        (d.className ∈ vehicleClasses ∧ round2 d.conf > 3/10)) ∧
    keepDetection ⟨2, 3/10⟩ = false ∧
    keepDetection ⟨2, 30001/100000⟩ = false ∧
    keepDetection ⟨2, 31/100⟩ = true ∧
    (∀ q : ℚ, keepDetection ⟨0, q⟩ = false) := by
  refine ⟨?_, ?_, ?_, ?_, ?_⟩
  · intro d; simp [keepDetection]
  · norm_num [keepDetection, Detection.className, classNames, vehicleClasses,
      round2, roundHalfEven]
  · norm_num [keepDetection, Detection.className, classNames, vehicleClasses,
      round2, roundHalfEven]
  · norm_num [keepDetection, Detection.className, classNames, vehicleClasses,
      round2, roundHalfEven]
  · intro q
    simp +decide [keepDetection, Detection.className, classNames, vehicleClasses]

/-- C4: every call to `add_decision` succeeds, the row it persists can be
read back (newest first) and carries `total_vehicles = lane1_vehicles +
lane2_vehicles`, and after any sequence of write operations every entry
ever written to the decision log satisfies that invariant. -/
theorem add_decision_total_invariant :
    ∀ (ops : List DBOp) (l1 l2 d1 d2 : ℤ) (c : String) (a : ℤ) (now : ℕ),
      (addDecision (runOps ops) l1 l2 d1 d2 c a now).1 = true ∧
      getRecentDecisions (addDecision (runOps ops) l1 l2 d1 d2 c a now).2 1 =
        [⟨now, l1, l2, d1, d2, l1 + l2, c, a⟩] ∧
      (((addDecision (runOps ops) l1 l2 d1 d2 c a now).2.decisionLog.all
        decisionInvariant) = true) := by
  intro ops l1 l2 d1 d2 c a now
  refine ⟨rfl, ?_, ?_⟩
  · simp [getRecentDecisions, addDecision]
  · have h : ((runOps ops).decisionLog.all decisionInvariant) = true :=
      foldl_decisionInvariant ops DBState.initial rfl
    simp [addDecision, decisionInvariant, h]

/-- C5 counterexample: one iteration of the frame-streaming loop over the
frame with 5 cars, 2 buses and 1 truck (all at confidence 0.9, score 12.0)
decides YELLOW yet writes nothing to the persistence store — the decision
log stays empty, refuting the claim that every iteration persists a
decision record. -/
theorem streaming_step_persists_nothing :
    ((generateFramesStep DBState.initial
        [⟨2, 9/10⟩, ⟨2, 9/10⟩, ⟨2, 9/10⟩, ⟨2, 9/10⟩, ⟨2, 9/10⟩,
         ⟨5, 9/10⟩, ⟨5, 9/10⟩, ⟨7, 9/10⟩]).2.decisionLog = []) ∧
    (generateFramesStep DBState.initial
        [⟨2, 9/10⟩, ⟨2, 9/10⟩, ⟨2, 9/10⟩, ⟨2, 9/10⟩, ⟨2, 9/10⟩,
         ⟨5, 9/10⟩, ⟨5, 9/10⟩, ⟨7, 9/10⟩]).1.text = "YELLOW LIGHT" ∧
    (generateFramesStep DBState.initial
        [⟨2, 9/10⟩, ⟨2, 9/10⟩, ⟨2, 9/10⟩, ⟨2, 9/10⟩, ⟨2, 9/10⟩,
         ⟨5, 9/10⟩, ⟨5, 9/10⟩, ⟨7, 9/10⟩]).1.score = 12 := by
  have hc : countDetections
      [⟨2, 9/10⟩, ⟨2, 9/10⟩, ⟨2, 9/10⟩, ⟨2, 9/10⟩, ⟨2, 9/10⟩,
       ⟨5, 9/10⟩, ⟨5, 9/10⟩, ⟨7, 9/10⟩] = ⟨5, 2, 1, 0⟩ := by
    norm_num [countDetections, countStep, keepDetection, Detection.className,
      classNames, vehicleClasses, round2, roundHalfEven, Counts.zero]
    decide
  refine ⟨rfl, ?_, ?_⟩
  · simp [generateFramesStep, processFrame, hc, signalText, decideSignal, densityScore]
    norm_num
  · simp [generateFramesStep, processFrame, hc, densityScore]
    norm_num

/-- C5 amended: each iteration of the frame-streaming cycle decides the
signal level and produces the annotated frame, but never touches the
persistence store: the database state is unchanged by every iteration
(`generate_frames` contains no call into `TrafficDatabase`). -/
theorem streaming_step_leaves_db_unchanged :
    ∀ (db : DBState) (ds : List Detection),
      (generateFramesStep db ds).2 = db ∧
      (generateFramesStep db ds).1 = processFrame ds :=
  fun _ _ => ⟨rfl, rfl⟩

/-- C6: for every lane id other than 1 and 2, `add_traffic_record` returns
`False` (the `CHECK` violation is caught inside the method, not raised to
the caller) and the `traffic_records` table is unchanged, so its row count
read back afterwards equals the count before the call. -/
theorem add_traffic_record_invalid_lane :
    ∀ (s : DBState) (laneId v : ℤ) (c : Option String) (g : Option ℤ) (now : ℕ),
      laneId ≠ 1 → laneId ≠ 2 →
      (addTrafficRecord s laneId v c g now).1 = false ∧
      (addTrafficRecord s laneId v c g now).2 = s ∧
      (addTrafficRecord s laneId v c g now).2.trafficRecords.length =
        s.trafficRecords.length := by
  intro s l v c g now h1 h2
  have h : ¬ (l = 1 ∨ l = 2) := by tauto
  simp [addTrafficRecord, h]

/-- C6 witness: `add_traffic_record` with `lane_id = 3` on a fresh database
fails and leaves the table empty. -/
theorem add_traffic_record_invalid_lane_witness :
    (addTrafficRecord DBState.initial 3 5 none none 0).1 = false ∧
    (addTrafficRecord DBState.initial 3 5 none none 0).2 = DBState.initial ∧
    (addTrafficRecord DBState.initial 3 5 none none 0).2.trafficRecords.length =
      DBState.initial.trafficRecords.length :=
  add_traffic_record_invalid_lane DBState.initial 3 5 none none 0
    (by decide) (by decide)

/-- C7 counterexample: a record written 40 seconds before midnight and read
30 seconds after midnight (timestamps in seconds: record at 86390, now at
86430, both on a database reached by one `add_traffic_record` call) is
inside the trailing one-hour window but outside the calendar day of `now`,
so `total_records` for `hour` is 1 while for `today` it is 0 — the claimed
chain `hour ⊆ today` fails. -/
theorem statistics_hour_exceeds_today :
    (getStatistics (runOps [.record 1 5 none none 86390]) "hour" 86430).totalRecords = 1 ∧
    (getStatistics (runOps [.record 1 5 none none 86390]) "today" 86430).totalRecords = 0 ∧
    86390 ≤ 86430 := by
  decide

/-- C7 amended: the record counts of `get_statistics` are monotone along
`today ≤ week ≤ all` and `hour ≤ week ≤ all` for every database state and
every current time, but the trailing one-hour window is NOT contained in
the calendar-day window, so `hour ≤ today` can fail. -/
theorem statistics_window_monotone :
    ∀ (s : DBState) (now : ℕ),
      (getStatistics s "today" now).totalRecords ≤ (getStatistics s "week" now).totalRecords ∧
      (getStatistics s "week" now).totalRecords ≤ (getStatistics s "all" now).totalRecords ∧
      (getStatistics s "hour" now).totalRecords ≤ (getStatistics s "week" now).totalRecords ∧
      (getStatistics s "hour" now).totalRecords ≤ (getStatistics s "all" now).totalRecords := by
  intro s now
  have htoday : ∀ ts, matchesPeriod "today" now ts =
      decide (ts / secondsPerDay = now / secondsPerDay) := fun _ => rfl
  have hweek : ∀ ts, matchesPeriod "week" now ts =
      decide (ts + secondsPerWeek ≥ now) := fun _ => rfl
  have hhour : ∀ ts, matchesPeriod "hour" now ts =
      decide (ts + secondsPerHour ≥ now) := fun _ => rfl
  have hall : ∀ ts, matchesPeriod "all" now ts = true := fun _ => rfl
  refine ⟨?_, ?_, ?_, ?_⟩
  · simp only [getStatistics]
    apply length_filter_mono
    intro r h
    rw [htoday] at h
    rw [hweek]
    simp only [decide_eq_true_eq, secondsPerDay, secondsPerWeek] at h ⊢
    omega
  · simp only [getStatistics]
    apply length_filter_mono
    intro r h
    exact hall r.timestamp
  · simp only [getStatistics]
    apply length_filter_mono
    intro r h
    rw [hhour] at h
    rw [hweek]
    simp only [decide_eq_true_eq, secondsPerHour, secondsPerWeek] at h ⊢
    omega
  · simp only [getStatistics]
    apply length_filter_mono
    intro r h
    exact hall r.timestamp

/-- C8 counterexample: the `traffic_records` schema constrains only
`lane_id`, not `vehicle_count`, so `add_traffic_record` with
`vehicle_count = -5` on a fresh database succeeds and a row with a
negative count is stored — refuting the claimed `vehicle_count ≥ 0`
invariant. -/
theorem negative_vehicle_count_persisted :
    (addTrafficRecord DBState.initial 1 (-5) none none 0).1 = true ∧
    (addTrafficRecord DBState.initial 1 (-5) none none 0).2.trafficRecords =
      [⟨0, 1, -5, none, none⟩] ∧
    ((-5 : ℤ) < 0) := by
  decide

/-- C8 amended: `vehicle_count` is unconstrained — for a valid lane id
(1 or 2), `add_traffic_record` succeeds and appends the row with the
given count stored verbatim, including negative counts. -/
theorem add_traffic_record_count_unchecked :
    ∀ (s : DBState) (laneId v : ℤ) (c : Option String) (g : Option ℤ) (now : ℕ),
      laneId = 1 ∨ laneId = 2 →
      (addTrafficRecord s laneId v c g now).1 = true ∧
      (addTrafficRecord s laneId v c g now).2.trafficRecords =
        s.trafficRecords ++ [⟨now, laneId, v, c, g⟩] := by
  intro s l v c g now h
  simp [addTrafficRecord, h]

/-- C8 amended witness: lane 1 with count -5 on a fresh database succeeds
and the negative row is stored. -/
theorem add_traffic_record_count_unchecked_witness :
    (addTrafficRecord DBState.initial 1 (-5) none none 7).1 = true ∧
    (addTrafficRecord DBState.initial 1 (-5) none none 7).2.trafficRecords =
      DBState.initial.trafficRecords ++ [⟨7, 1, -5, none, none⟩] :=
  add_traffic_record_count_unchecked DBState.initial 1 (-5) none none 7 (Or.inl rfl)

/-- C9 counterexample: `get_statistics` with the invalid period `banana`
on a two-record database (one recent record, one old one) returns the
normal full-table statistics — identical to `all` and counting both
records — instead of the claimed failure result; the `hour` filter by
contrast counts only one, so the result is genuinely unfiltered data. -/
theorem statistics_invalid_period_counterexample :
    getStatistics (runOps [.record 1 5 none none 100, .record 2 7 none none 999000])
        "banana" 1000000 =
      getStatistics (runOps [.record 1 5 none none 100, .record 2 7 none none 999000])
        "all" 1000000 ∧
    (getStatistics (runOps [.record 1 5 none none 100, .record 2 7 none none 999000])
        "banana" 1000000).totalRecords = 2 ∧
    (getStatistics (runOps [.record 1 5 none none 100, .record 2 7 none none 999000])
        "hour" 1000000).totalRecords = 1 := by
  decide

/-- C9 amended: `get_statistics` does not validate its period argument:
any period other than `today`, `week` and `hour` — including `all` itself
and any invalid string — produces the empty time filter, so an invalid
period silently returns the full-table statistics, not a failure. -/
theorem statistics_invalid_period_is_all :
    ∀ (s : DBState) (p : String) (now : ℕ),
      p ≠ "today" → p ≠ "week" → p ≠ "hour" →
      getStatistics s p now = getStatistics s "all" now := by
  intro s p now h1 h2 h3
  have hp : ∀ ts, matchesPeriod p now ts = true := by
    intro ts
    simp [matchesPeriod, h1, h2, h3]
  have ha : ∀ ts, matchesPeriod "all" now ts = true := fun _ => rfl
  simp only [getStatistics, hp, ha]

/-- C9 amended witness: the period `banana` gives the same statistics as
`all` on a fresh database. -/
theorem statistics_invalid_period_is_all_witness :
    getStatistics DBState.initial "banana" 0 = getStatistics DBState.initial "all" 0 :=
  statistics_invalid_period_is_all DBState.initial "banana" 0
    (by decide) (by decide) (by decide)

/-- C10: whenever no video session is active — the current video path is
`None` (or the empty string, which Python also treats as falsy) or names
a file that does not exist — `generate_frames` returns before its first
`yield`, so the generator produces the empty stream, regardless of what
frames the capture could have delivered. -/
theorem no_session_empty_stream :
    ∀ (p : Option String) (fe : String → Bool) (frames : List (List Detection)),
      (pathTruthy p = false ∨ fe (p.getD "") = false) →
      generateFrames p fe frames = [] := by
  intro p fe frames h
  rcases h with h | h <;> simp [generateFrames, h]

/-- C10 witness: with no video path set, even a nonempty frame supply
yields the empty stream. -/
theorem no_session_empty_stream_witness :
    generateFrames none (fun _ => true) [[⟨2, 9/10⟩], [⟨5, 9/10⟩]] = [] :=
  no_session_empty_stream none (fun _ => true) [[⟨2, 9/10⟩], [⟨5, 9/10⟩]]
    (Or.inl rfl)

end Codegenix
